import Mathlib

/-! Shallow embedding of the masspayout repository (src/app.py and src/mass.py):
the amount parser, the payout-body builder, the PayPal client functions and the
payout web route, together with theorems settling the specification claims. -/

namespace Masspayout

/-! ### JSON-like documents

The Python code manipulates decoded JSON (dicts, lists, strings, numbers).
Dicts are modelled as association lists with unique keys. -/

inductive Json where
  | null : Json
  | bool (b : Bool) : Json
  | num (q : ℚ) : Json
  | str (s : String) : Json
  | arr (elems : List Json) : Json
  | obj (fields : List (String × Json)) : Json

/-- Python truthiness of a JSON-like value: None, False, 0, the empty string,
the empty list and the empty dict are falsy, everything else truthy. -/
def truthy : Json → Bool
  | .null => false
  | .bool b => b
  | .num q => decide (q ≠ 0)
  | .str s => decide (s ≠ "")
  | .arr xs => !xs.isEmpty
  | .obj kvs => !kvs.isEmpty

/-- Model of Python dict.get on an association list: None when the key is
absent. -/
def dictGet (kvs : List (String × Json)) (k : String) : Option Json :=
  (kvs.find? (fun kv => kv.1 == k)).map (fun kv => kv.2)

/-- Python `a or b` where both operands come from dict.get: the first operand
if it is present and truthy, otherwise the second. -/
def pyOrJ (a b : Option Json) : Option Json :=
  match a with
  | some v => if truthy v then some v else b
  | none => b

/-- Truthiness of a dict.get result (None is falsy). -/
def truthyOpt : Option Json → Bool
  | some v => truthy v
  | none => false

/-! ### Python strings: strip and value parsing

`pyStrip` models str.strip() with Python's full whitespace set.
`pyFloat?` models `float(token)`: optional sign, then inf / infinity / nan
(case-insensitive) or a decimal literal with optional fraction, exponent and
underscore digit separators.  Finite values are kept as exact scaled decimals;
two aspects of CPython are outside the model's scope: non-ASCII decimal digits
(which float also converts) and the overflow or underflow of literals whose
magnitude leaves the double range.  The universal theorems below therefore
scope their token hypotheses to ASCII tokens and double-range values, where
the model agrees with the code; all concrete inputs used are well inside that
scope. -/

/-- The Python whitespace set: exactly the characters str.isspace accepts,
which both str.strip and float trim (tab through carriage return, the
file/group/record/unit separators, space, next line, no-break space, ogham
space mark, the en-quad through hair-space range, line and paragraph
separators, narrow no-break space, medium mathematical space, and ideographic
space). -/
def pyIsSpace (c : Char) : Bool :=
  let n := c.toNat
  decide ((9 ≤ n ∧ n ≤ 13) ∨ (28 ≤ n ∧ n ≤ 32) ∨ n = 133 ∨ n = 160 ∨ n = 5760 ∨
    (8192 ≤ n ∧ n ≤ 8202) ∨ n = 8232 ∨ n = 8233 ∨ n = 8239 ∨ n = 8287 ∨ n = 12288)

def pyStrip (s : String) : String :=
  String.mk (((s.data.dropWhile pyIsSpace).reverse.dropWhile pyIsSpace).reverse)

/-- A parsed float value: finite values are kept exactly as a signed numerator
over a power-of-ten denominator (num over ten to the scale), which represents
every decimal literal exactly. -/
inductive PyFloat where
  | finite (num : ℤ) (scale : ℕ)
  | inf (neg : Bool)
  | nan

def digitVal (c : Char) : ℕ := c.toNat - 48

/-- Consume the remainder of a digit run with underscore separators allowed
only between digits, accumulating the value and the number of digits. -/
def digitsGo (acc count : ℕ) : List Char → Option (ℕ × ℕ)
  | [] => some (acc, count)
  | '_' :: c :: rest =>
    if c.isDigit then digitsGo (acc * 10 + digitVal c) (count + 1) rest else none
  | ['_'] => none
  | c :: rest =>
    if c.isDigit then digitsGo (acc * 10 + digitVal c) (count + 1) rest else none

/-- A Python digitpart: a nonempty digit run, underscores allowed between
digits.  Returns the value and the digit count, or none when invalid. -/
def digitPartVal : List Char → Option (ℕ × ℕ)
  | [] => none
  | c :: rest => if c.isDigit then digitsGo (digitVal c) 1 rest else none

/-- An optional side of the decimal point: absent when empty, otherwise it must
be a valid digitpart. -/
def sidePart : List Char → Option (Option (ℕ × ℕ))
  | [] => some none
  | cs => (digitPartVal cs).map some

/-- Split at the first character satisfying p; the second component is none
when no such character occurs. -/
def splitFirst (p : Char → Bool) : List Char → List Char × Option (List Char)
  | [] => ([], none)
  | c :: rest =>
    if p c then ([], some rest)
    else
      let (pre, post) := splitFirst p rest
      (c :: pre, post)

def readSign : List Char → Bool × List Char
  | '+' :: rest => (false, rest)
  | '-' :: rest => (true, rest)
  | cs => (false, cs)

def pyFloat? (s : String) : Option PyFloat :=
  let cs := (pyStrip s).data
  let (neg, rest) := readSign cs
  let low := rest.map Char.toLower
  if low = "inf".data ∨ low = "infinity".data then some (.inf neg)
  else if low = "nan".data then some .nan
  else
    let (mant, expPart) := splitFirst (fun c => c == 'e' || c == 'E') rest
    let (ip, fpOpt) := splitFirst (fun c => c == '.') mant
    do
      let eVal : ℤ ←
        match expPart with
        | none => pure 0
        | some ecs =>
          let (eneg, edigits) := readSign ecs
          match digitPartVal edigits with
          | none => none
          | some ve => pure (if eneg then -(ve.1 : ℤ) else (ve.1 : ℤ))
      let mval : ℕ × ℕ ←
        match fpOpt with
        | none =>
          match digitPartVal ip with
          | none => none
          | some vi => pure (vi.1, 0)
        | some fp => do
          let ipR ← sidePart ip
          let fpR ← sidePart fp
          match ipR, fpR with
          | none, none => none
          | _, _ =>
            let iv : ℕ := match ipR with | some vi => vi.1 | none => 0
            let fvc : ℕ × ℕ := match fpR with | some vf => vf | none => (0, 0)
            pure (iv * 10 ^ fvc.2 + fvc.1, fvc.2)
      let scaled : ℕ × ℕ :=
        if 0 ≤ eVal then (mval.1 * 10 ^ eVal.toNat, mval.2)
        else (mval.1, mval.2 + (-eVal).toNat)
      pure (.finite (if neg then -(scaled.1 : ℤ) else (scaled.1 : ℤ)) scaled.2)

/-- Python `amt <= 0` on a float (false for nan). -/
def pyLe0 : PyFloat → Bool
  | .finite num _ => decide (num ≤ 0)
  | .inf neg => neg
  | .nan => false

/-! ### Two-decimal formatting, the .2f format specifier -/

def pad2 (n : ℕ) : String :=
  if n < 10 then "0" ++ toString n else toString n

/-- Round n over d to the nearest integer, ties to even, both nonnegative. -/
def rndHalfEven (n d : ℕ) : ℕ :=
  let q := n / d
  let r := n % d
  if 2 * r < d then q
  else if d < 2 * r then q + 1
  else if q % 2 = 0 then q else q + 1

/-- Model of formatting a float with two decimal places: the magnitude times a
hundred is rounded half-to-even and printed with the sign in front. -/
def format2f : PyFloat → String
  | .nan => "nan"
  | .inf neg => if neg then "-inf" else "inf"
  | .finite num scale =>
    let rounded := rndHalfEven (num.natAbs * 100) (10 ^ scale)
    let core := toString (rounded / 100) ++ "." ++ pad2 (rounded % 100)
    if num < 0 then "-" ++ core else core

/-! ### parse_amounts (src/app.py lines 10-26) -/

/-- One already-stripped nonempty token of parse_amounts: parse as a number and
reject nonpositive values; both the parse failure and the positivity failure
surface as the same ValueError message because the positivity ValueError is
raised inside the try block and re-wrapped by the except clause. -/
def parseToken (token : String) : Except String String :=
  match pyFloat? token with
  | none => .error ("Invalid amount: " ++ token)
  | some amt =>
    if pyLe0 amt then .error ("Invalid amount: " ++ token)
    else .ok (format2f amt)

/-- Split a character list at every occurrence of a delimiter, keeping empty
groups, the semantics of str.split with an explicit separator. -/
def splitChar (d : Char) : List Char → List (List Char)
  | [] => [[]]
  | c :: rest =>
    let groups := splitChar d rest
    if c = d then [] :: groups
    else
      match groups with
      | g :: gs => (c :: g) :: gs
      | [] => [[c]]

/-- Model of raw.replace carriage returns and commas by newlines, then split on
newlines: both replacements are single-character, so together they are one
character map. -/
def splitTokens (raw : String) : List String :=
  (splitChar '\n' (raw.data.map (fun c => if c = '\r' then '\n' else if c = ',' then '\n' else c))).map String.mk

/-- The parse_amounts loop over the split tokens: strip each, skip empties,
validate the rest in order, failing at the first bad token. -/
def parseTokens : List String → Except String (List String)
  | [] => .ok []
  | t :: rest =>
    let tok := pyStrip t
    if tok = "" then parseTokens rest
    else
      match parseToken tok with
      | .error e => .error e
      | .ok v => (parseTokens rest).map (fun vs => v :: vs)

/-- Model of app.parse_amounts. -/
def parse_amounts (raw : String) : Except String (List String) :=
  match parseTokens (splitTokens raw) with
  | .error e => .error e
  | .ok vs => if vs = [] then .error "At least one amount is required" else .ok vs

/-! ### build_payout_body (src/app.py lines 29-48)

The random draw of uuid4().hex taken by the batch-id generator is passed in
explicitly as the sixteen-character hex prefix it keeps. -/

structure Amount where
  value : String
  currency : String
  deriving DecidableEq

structure PayoutItem where
  amount : Amount
  sender_item_id : String
  recipient_wallet : String
  receiver : String
  purpose : String
  deriving DecidableEq

structure SenderBatchHeader where
  sender_batch_id : String
  recipient_type : String
  email_subject : String
  email_message : String
  deriving DecidableEq

structure PayoutBody where
  sender_batch_header : SenderBatchHeader
  items : List PayoutItem
  deriving DecidableEq

/-- Model of mass._generate_sender_batch_id, with the random hex draw made
explicit. -/
def generate_sender_batch_id (hex16 : String) : String :=
  "SB-" ++ hex16

/-- Zero-pad a natural number to at least three digits, the 03d format
specifier. -/
def pad03 (n : ℕ) : String :=
  let s := toString n
  String.mk (List.replicate (3 - s.length) '0') ++ s

/-- The item-building loop of build_payout_body: one PayoutItem per amount,
with the running one-based index carried along. -/
def mkItems (email currency : String) : ℕ → List String → List PayoutItem
  | _, [] => []
  | idx, a :: rest =>
    { amount := { value := a, currency := currency }
      sender_item_id := "web-" ++ pad03 idx
      recipient_wallet := "PAYPAL"
      receiver := email
      purpose := "GOODS" } :: mkItems email currency (idx + 1) rest

/-- Model of app.build_payout_body. -/
def build_payout_body (email : String) (amounts : List String)
    (currency subject message : String) (rnd : String) : PayoutBody :=
  { sender_batch_header :=
      { sender_batch_id := generate_sender_batch_id rnd
        recipient_type := "EMAIL"
        email_subject := subject
        email_message := message }
    items := mkItems email currency 1 amounts }

/-! ### Provider client (src/mass.py)

The HTTP layer is modelled by an outcome parameter: the urlopen call either
fails at transport level, raises an HTTPError carrying the status and body, or
returns a decoded JSON payload. -/

inductive HttpOutcome where
  | transportError (msg : String)
  | httpError (status : ℕ) (body : String)
  | success (payload : Json)

inductive AuthCause where
  | transport (msg : String)
  | http (status : ℕ) (body : String)
  | noAccessToken
  | notADict
  deriving DecidableEq

/-- Model of mass.get_access_token: every failure of the try block is wrapped
into the single RuntimeError; the wrapped causes are kept structured here. -/
def get_access_token (client_id client_secret : String) (outcome : HttpOutcome) :
    Except AuthCause Json :=
  match outcome with
  | .transportError msg => .error (.transport msg)
  | .httpError status body => .error (.http status body)
  | .success payload =>
    match payload with
    | .obj kvs =>
      match dictGet kvs "access_token" with
      | some tok => if truthy tok then .ok tok else .error .noAccessToken
      | none => .error .noAccessToken
    | _ => .error .notADict

/-- The message of the RuntimeError raised by get_access_token, as flashed by
the route. -/
def authCauseMsg : AuthCause → String
  | .transport msg => msg
  | .http status body => "HTTP Error " ++ toString status ++ ": " ++ body
  | .noAccessToken => "No access_token in PayPal OAuth response"
  | .notADict => "AttributeError"

def authErrStr (c : AuthCause) : String :=
  "Failed to obtain PayPal access token: " ++ authCauseMsg c

/-- Model of mass.create_payout: request construction has no observable effect
on the result, which is determined by the HTTP outcome. -/
def create_payout (access_token : Json) (payout_payload : PayoutBody)
    (prefer_async : Bool) (request_id : Option String) (outcome : HttpOutcome) :
    Except String Json :=
  match outcome with
  | .transportError msg => .error ("PayPal payout failed: " ++ msg)
  | .httpError status body =>
    .error ("PayPal payout failed: HTTP " ++ toString status ++ " " ++ body)
  | .success payload => .ok payload

/-! ### _extract_batch_id (src/mass.py lines 93-105) -/

def payoutsSegment : String := "/v1/payments/payouts/"

/-- Substring test on character lists. -/
def listContainsSub (pat : List Char) : List Char → Bool
  | [] => pat.isEmpty
  | c :: rest => pat.isPrefixOf (c :: rest) || listContainsSub pat rest

def strContains (hay pat : String) : Bool :=
  listContainsSub pat.data hay.data

/-- The last component of href.rsplit on a slash: the whole string when no
slash occurs. -/
def lastComponent (s : String) : String :=
  String.mk ((splitChar '/' s.data).getLastD [])

/-- Python equality of a string against a JSON value, as used by the `in`
membership test on a list. -/
def jsonEqStr (s : String) : Json → Bool
  | .str t => s == t
  | _ => false

/-- The links loop of _extract_batch_id.  Each element must support .get, so a
non-dict element raises; a truthy href that is not a string raises at the
substring test or at rsplit, except that a list or dict href merely runs a
membership test and only raises when that test succeeds. -/
def scanLinks : List Json → Except String (Option Json)
  | [] => .ok none
  | link :: rest =>
    match link with
    | .obj kvs =>
      match dictGet kvs "href" with
      | none => scanLinks rest
      | some href =>
        if truthy href then
          match href with
          | .str s =>
            if strContains s payoutsSegment then .ok (some (.str (lastComponent s)))
            else scanLinks rest
          | .arr xs =>
            if xs.any (jsonEqStr payoutsSegment) then .error "AttributeError"
            else scanLinks rest
          | .obj kvs2 =>
            if kvs2.any (fun kv => kv.1 == payoutsSegment) then .error "AttributeError"
            else scanLinks rest
          | _ => .error "TypeError"
        else scanLinks rest
    | _ => .error "AttributeError"

/-- Iterating the effective links value: a list runs the loop; a truthy
non-list raises, since a number or boolean is not iterable and a nonempty
string or dict iterates to elements without .get. -/
def iterLinks : Json → Except String (Option Json)
  | .arr xs => scanLinks xs
  | .str _ => .error "AttributeError"
  | .obj _ => .error "AttributeError"
  | _ => .error "TypeError"

/-- The fallback part of _extract_batch_id: payout_response.get of links with
default empty list, then `or` empty list, then the loop. -/
def linksPart (resp : List (String × Json)) : Except String (Option Json) :=
  let raw := (dictGet resp "links").getD (.arr [])
  iterLinks (if truthy raw then raw else .arr [])

/-- The batch-header part of _extract_batch_id: the header under either naming
convention must be a dict, and the identifier under either naming convention
must be truthy to be used. -/
def headerPart (resp : List (String × Json)) : Option Json :=
  match pyOrJ (dictGet resp "batch_header") (dictGet resp "batchHeader") with
  | some (.obj kvs) =>
    match pyOrJ (dictGet kvs "payout_batch_id") (dictGet kvs "payoutBatchId") with
    | some v => if truthy v then some v else none
    | none => none
  | _ => none

/-- Model of mass._extract_batch_id on a decoded JSON dict. -/
def extractBatchId (resp : List (String × Json)) : Except String (Option Json) :=
  match headerPart resp with
  | some v => .ok (some v)
  | none => linksPart resp

/-- The route applies _extract_batch_id to whatever JSON the payout call
returned; a non-dict payload raises at the first .get. -/
def extractBatchIdJson : Json → Except String (Option Json)
  | .obj kvs => extractBatchId kvs
  | _ => .error "AttributeError"

/-- A link element the loop can always process without raising: a dict whose
href is absent, falsy, or a string. -/
def linkOk : Json → Bool
  | .obj kvs =>
    match dictGet kvs "href" with
    | none => true
    | some (.str _) => true
    | some v => !truthy v
  | _ => false

/-- Whether a links lookup result, when present and truthy, is a list of
processable link elements. -/
def linksOkVal : Option Json → Bool
  | none => true
  | some (.arr xs) => xs.all linkOk
  | some v => !truthy v

/-- A document whose links value, when present and truthy, is a list of
processable link elements. -/
def linksOk (resp : List (String × Json)) : Bool :=
  linksOkVal (dictGet resp "links")

/-! ### The payout route (src/app.py lines 65-105)

The form, session and environment inputs are explicit; the two HTTP calls the
route can make are given as outcome oracles, and the list of remote calls
actually issued is returned alongside the response and the updated session. -/

structure Form where
  client_id : Option String
  client_secret : Option String
  email : Option String
  amounts : Option String
  currency : Option String
  subject : Option String
  message : Option String

structure Session where
  paypal_client_id : Option String
  paypal_client_secret : Option String
  deriving DecidableEq

structure EnvConfig where
  paypal_client_id_env : Option String
  paypal_client_secret_env : Option String

inductive RemoteCall where
  | tokenExchange
  | payoutSubmit
  deriving DecidableEq

inductive RouteResponse where
  | redirectIndex (flash : String) (category : String)
  | renderResult (result : Json) (warn : String)
  | redirectStatus (batch_id : Json)

/-- Python `a or b` on optional strings, each side a session or environment
lookup: the first if present and nonempty, else the second. -/
def pyOrS (a b : Option String) : Option String :=
  match a with
  | some s => if s = "" then b else some s
  | none => b

def truthyS : Option String → Bool
  | some s => decide (s ≠ "")
  | none => false

def defaultSubject : String := "You have money!"

def defaultMessage : String := "You received a payment. Thanks for using our service!"

/-- Session after the credential-caching step at the top of the route. -/
def effectiveSession (form : Form) (sess : Session) : Session :=
  let fid := pyStrip (form.client_id.getD "")
  let fsec := pyStrip (form.client_secret.getD "")
  if fid ≠ "" ∧ fsec ≠ "" then
    { paypal_client_id := some fid, paypal_client_secret := some fsec }
  else sess

def resolvedClientId (form : Form) (sess : Session) (env : EnvConfig) : Option String :=
  pyOrS (effectiveSession form sess).paypal_client_id env.paypal_client_id_env

def resolvedClientSecret (form : Form) (sess : Session) (env : EnvConfig) : Option String :=
  pyOrS (effectiveSession form sess).paypal_client_secret env.paypal_client_secret_env

def formEmail (form : Form) : String := pyStrip (form.email.getD "")

def formRawAmounts (form : Form) : String := pyStrip (form.amounts.getD "")

def pyUpper (s : String) : String := String.mk (s.data.map Char.toUpper)

def formCurrency (form : Form) : String :=
  let c := pyUpper (pyStrip (form.currency.getD "USD"))
  if c = "" then "USD" else c

def formSubject (form : Form) : String :=
  let s := pyStrip (form.subject.getD defaultSubject)
  if s = "" then defaultSubject else s

def formMessage (form : Form) : String :=
  let m := pyStrip (form.message.getD defaultMessage)
  if m = "" then defaultMessage else m

/-- Model of the payout POST route.  Returns the response, the session after
the request, and the remote calls issued in order. -/
def create_payout_route (form : Form) (sess : Session) (env : EnvConfig)
    (rnd : String) (tokenOutcome payoutOutcome : HttpOutcome) :
    RouteResponse × Session × List RemoteCall :=
  let sess1 := effectiveSession form sess
  let client_id := resolvedClientId form sess env
  let client_secret := resolvedClientSecret form sess env
  if ¬ (truthyS client_id = true ∧ truthyS client_secret = true) then
    (.redirectIndex "Provide PayPal Client ID/Secret in the form or set environment variables." "error",
     sess1, [])
  else if formEmail form = "" then
    (.redirectIndex "Recipient email is required" "error", sess1, [])
  else
    match parse_amounts (formRawAmounts form) with
    | .error e => (.redirectIndex e "error", sess1, [])
    | .ok amounts =>
      let payout_body := build_payout_body (formEmail form) amounts (formCurrency form)
        (formSubject form) (formMessage form) rnd
      match get_access_token (client_id.getD "") (client_secret.getD "") tokenOutcome with
      | .error e => (.redirectIndex (authErrStr e) "error", sess1, [.tokenExchange])
      | .ok token =>
        match create_payout token payout_body true none payoutOutcome with
        | .error e => (.redirectIndex e "error", sess1, [.tokenExchange, .payoutSubmit])
        | .ok result =>
          match extractBatchIdJson result with
          | .error e => (.redirectIndex e "error", sess1, [.tokenExchange, .payoutSubmit])
          | .ok batch_id =>
            match batch_id with
            | some v =>
              if truthy v then
                (.redirectStatus v, sess1, [.tokenExchange, .payoutSubmit])
              else
                (.renderResult result "Payout created but no batch id returned",
                 sess1, [.tokenExchange, .payoutSubmit])
            | none =>
              (.renderResult result "Payout created but no batch id returned",
               sess1, [.tokenExchange, .payoutSubmit])

/-! ## Helper lemmas -/

theorem parseTokens_all_empty : ∀ (ts : List String), (∀ t ∈ ts, pyStrip t = "") →
    parseTokens ts = .ok [] := by
  intro ts
  induction ts with
  | nil => intro _; rfl
  | cons t rest ih =>
    intro h
    have ht : pyStrip t = "" := h t (List.mem_cons_self t rest)
    have hrest := ih (fun u hu => h u (List.mem_cons_of_mem t hu))
    simp [parseTokens, ht, hrest]

theorem parseTokens_error_of_bad : ∀ (ts : List String) (t : String), t ∈ ts →
    pyStrip t ≠ "" → (∃ e₀, parseToken (pyStrip t) = .error e₀) →
    ∃ e, parseTokens ts = .error e := by
  intro ts
  induction ts with
  | nil => intro t ht; exact absurd ht (List.not_mem_nil t)
  | cons u rest ih =>
    intro t ht hne hbad
    rcases List.mem_cons.mp ht with heq | hmem
    · subst heq
      rcases hbad with ⟨e₀, he₀⟩
      refine ⟨e₀, ?_⟩
      simp [parseTokens, hne, he₀]
    · by_cases hu : pyStrip u = ""
      · rcases ih t hmem hne hbad with ⟨e, he⟩
        exact ⟨e, by simp [parseTokens, hu, he]⟩
      · rcases hp : parseToken (pyStrip u) with e | v
        · exact ⟨e, by simp [parseTokens, hu, hp]⟩
        · rcases ih t hmem hne hbad with ⟨e, he⟩
          exact ⟨e, by simp [parseTokens, hu, hp, he, Except.map]⟩

theorem parse_amounts_of_parseTokens_error (raw : String) (e : String)
    (h : parseTokens (splitTokens raw) = .error e) : parse_amounts raw = .error e := by
  simp [parse_amounts, h]

theorem mkItems_length (email currency : String) :
    ∀ (amounts : List String) (start : ℕ),
      (mkItems email currency start amounts).length = amounts.length := by
  intro amounts
  induction amounts with
  | nil => intro start; rfl
  | cons a rest ih => intro start; simp [mkItems, ih]

theorem mkItems_get? (email currency : String) :
    ∀ (amounts : List String) (start i : ℕ),
      (mkItems email currency start amounts).get? i =
        (amounts.get? i).map (fun a =>
          { amount := { value := a, currency := currency }
            sender_item_id := "web-" ++ pad03 (start + i)
            recipient_wallet := "PAYPAL"
            receiver := email
            purpose := "GOODS" }) := by
  intro amounts
  induction amounts with
  | nil => intro start i; rfl
  | cons a rest ih =>
    intro start i
    cases i with
    | zero => rfl
    | succ j =>
      have := ih (start + 1) j
      simp only [mkItems, List.get?, this]
      have harith : start + 1 + j = start + (j + 1) := by omega
      rw [harith]

theorem parseTokens_ok_of_good : ∀ ts : List String,
    (∀ t ∈ ts, pyStrip t ≠ "" → ∃ v, parseToken (pyStrip t) = .ok v) →
    ∃ vs, parseTokens ts = .ok vs ∧ (vs = [] ↔ ∀ t ∈ ts, pyStrip t = "") := by
  intro ts
  induction ts with
  | nil => intro _; exact ⟨[], rfl, by simp⟩
  | cons t rest ih =>
    intro h
    rcases ih (fun u hu => h u (List.mem_cons_of_mem t hu)) with ⟨vs, hok, hiff⟩
    by_cases ht : pyStrip t = ""
    · refine ⟨vs, by simp [parseTokens, ht, hok], ?_⟩
      constructor
      · intro hvs u hu
        rcases List.mem_cons.mp hu with heq | hmem
        · rw [heq]; exact ht
        · exact (hiff.mp hvs) u hmem
      · intro hall
        exact hiff.mpr (fun u hu => hall u (List.mem_cons_of_mem t hu))
    · rcases h t (List.mem_cons_self t rest) ht with ⟨v, hv⟩
      refine ⟨v :: vs, by simp [parseTokens, ht, hv, hok, Except.map], ?_⟩
      exact iff_of_false (by simp) (fun hall => ht (hall t (List.mem_cons_self t rest)))

theorem string_append_left_cancel (a b c : String) (h : a ++ b = a ++ c) : b = c := by
  have hd : a.data ++ b.data = a.data ++ c.data := by
    have hcongr := congrArg String.data h
    simpa [String.data_append] using hcongr
  have hbc : b.data = c.data := List.append_cancel_left hd
  cases b
  cases c
  exact congrArg String.mk hbc

theorem scanLinks_ok_of_all : ∀ (xs : List Json), xs.all linkOk = true →
    ∃ r, scanLinks xs = .ok r := by
  intro xs
  induction xs with
  | nil => intro _; exact ⟨none, rfl⟩
  | cons link rest ih =>
    intro h
    have hlink : linkOk link = true := by
      have := List.all_eq_true.mp h
      exact this link (List.mem_cons_self link rest)
    have hrest : rest.all linkOk = true := by
      apply List.all_eq_true.mpr
      intro x hx
      exact List.all_eq_true.mp h x (List.mem_cons_of_mem link hx)
    rcases ih hrest with ⟨r, hr⟩
    cases link with
    | obj kvs =>
      rcases hhref : dictGet kvs "href" with _ | v
      · exact ⟨r, by simp [scanLinks, hhref, hr]⟩
      · by_cases htru : truthy v = true
        · cases v with
          | str s =>
            by_cases hc : strContains s payoutsSegment = true
            · exact ⟨some (.str (lastComponent s)), by simp [scanLinks, hhref, htru, hc]⟩
            · exact ⟨r, by simp [scanLinks, hhref, htru, hc, hr]⟩
          | null => simp [truthy] at htru
          | bool b =>
            simp [linkOk, hhref, truthy] at hlink
            simp [truthy, hlink] at htru
          | num q =>
            simp [linkOk, hhref, truthy] at hlink
            simp [truthy, hlink] at htru
          | arr ys =>
            simp [linkOk, hhref, truthy] at hlink
            simp [truthy, hlink] at htru
          | obj kvs2 =>
            simp [linkOk, hhref, truthy] at hlink
            simp [truthy, hlink] at htru
        · have htru' : truthy v = false := by
            cases hv : truthy v
            · rfl
            · exact absurd hv htru
          exact ⟨r, by simp [scanLinks, hhref, htru', hr]⟩
    | null => simp [linkOk] at hlink
    | bool b => simp [linkOk] at hlink
    | num q => simp [linkOk] at hlink
    | str s => simp [linkOk] at hlink
    | arr ys => simp [linkOk] at hlink

/-! ## Claim theorems -/

/-- C1: parse_amounts on the input mixing a comma and a newline as delimiters
splits on both, trims whitespace, discards empty tokens, normalizes each token
to two decimal places, and returns exactly the three amounts in input order. -/
theorem parse_amounts_mixed_input :
    parse_amounts "10,20.5\n0.99" = .ok ["10.00", "20.50", "0.99"] := rfl

/-- C2: parse_amounts fails with the at-least-one-amount ValidationError on the
empty and the whitespace-only input and in general whenever every token strips
to empty; it fails with a ValidationError on the unparseable token abc and on
the nonpositive token -5 and in general whenever some nonempty ASCII token is
unparseable or parses to a value at most zero; conversely, when some token is
usable and every nonempty token parses to a strictly positive finite value in
the double range it succeeds with a non-empty sequence; and whenever it
succeeds the returned sequence is non-empty. -/
theorem parse_amounts_failure_characterization :
    parse_amounts "" = .error "At least one amount is required" ∧
    parse_amounts "   " = .error "At least one amount is required" ∧
    parse_amounts "abc" = .error "Invalid amount: abc" ∧
    parse_amounts "-5" = .error "Invalid amount: -5" ∧
    (∀ raw : String, (∀ t ∈ splitTokens raw, pyStrip t = "") →
      parse_amounts raw = .error "At least one amount is required") ∧
    (∀ raw t : String, t ∈ splitTokens raw → (∀ c ∈ t.data, c.toNat < 128) →
      pyStrip t ≠ "" →
      (pyFloat? (pyStrip t) = none ∨ ∃ f, pyFloat? (pyStrip t) = some f ∧ pyLe0 f = true) →
      ∃ e, parse_amounts raw = .error e) ∧
    (∀ raw : String,
      (∃ t ∈ splitTokens raw, pyStrip t ≠ "") →
      (∀ t ∈ splitTokens raw, pyStrip t ≠ "" →
        ∃ num : ℤ, ∃ scale : ℕ, pyFloat? (pyStrip t) = some (.finite num scale) ∧
          0 < num ∧ num ≤ 10 ^ 300 ∧ scale ≤ 300) →
      ∃ vs, parse_amounts raw = .ok vs ∧ vs ≠ []) ∧
    (∀ (raw : String) (vs : List String), parse_amounts raw = .ok vs → vs ≠ []) := by
  refine ⟨rfl, rfl, rfl, rfl, ?_, ?_, ?_, ?_⟩
  · intro raw h
    have := parseTokens_all_empty (splitTokens raw) h
    simp [parse_amounts, this]
  · intro raw t hmem _hascii hne hbad
    have hbad' : ∃ e₀, parseToken (pyStrip t) = .error e₀ := by
      rcases hbad with hnone | ⟨f, hf, hle⟩
      · exact ⟨"Invalid amount: " ++ pyStrip t, by simp [parseToken, hnone]⟩
      · exact ⟨"Invalid amount: " ++ pyStrip t, by simp [parseToken, hf, hle]⟩
    rcases parseTokens_error_of_bad (splitTokens raw) t hmem hne hbad' with ⟨e, he⟩
    exact ⟨e, parse_amounts_of_parseTokens_error raw e he⟩
  · intro raw hex hgood
    have hgood' : ∀ t ∈ splitTokens raw, pyStrip t ≠ "" →
        ∃ v, parseToken (pyStrip t) = .ok v := by
      intro t ht hne
      rcases hgood t ht hne with ⟨num, scale, hf, hpos, _, _⟩
      refine ⟨format2f (.finite num scale), ?_⟩
      have hle : pyLe0 (.finite num scale) = false := by
        simp only [pyLe0, decide_eq_false_iff_not]
        omega
      simp [parseToken, hf, hle]
    rcases parseTokens_ok_of_good (splitTokens raw) hgood' with ⟨vs, hok, hiff⟩
    have hvs : vs ≠ [] := by
      intro hnil
      rcases hex with ⟨t, ht, htne⟩
      exact htne (hiff.mp hnil t ht)
    exact ⟨vs, by simp [parse_amounts, hok, hvs], hvs⟩
  · intro raw vs h
    unfold parse_amounts at h
    rcases hp : parseTokens (splitTokens raw) with e | vs'
    · rw [hp] at h; exact absurd h (by simp)
    · rw [hp] at h
      by_cases hnil : vs' = []
      · simp [hnil] at h
      · simp [hnil] at h
        subst h
        exact hnil

theorem parse_amounts_failure_characterization_witness :
    ∃ vs, parse_amounts "10" = .ok vs ∧ vs ≠ [] :=
  parse_amounts_failure_characterization.2.2.2.2.2.2.1 "10"
    ⟨"10", by decide, by decide⟩
    (by
      intro t ht hne
      have hlist : splitTokens "10" = ["10"] := rfl
      rw [hlist] at ht
      have ht' : t = "10" := by simpa using ht
      subst ht'
      exact ⟨10, 0, rfl, by decide, by norm_num, by decide⟩)

/-- C3: contrary to the MonetaryAmount invariant, the tokens inf and nan are
accepted by the code: float parses them, the nonpositivity check does not
reject them, and the two-decimal formatting returns them unchanged, so the
output strings are neither finite nor two-decimal. -/
theorem parse_amounts_accepts_inf_nan :
    parse_amounts "inf" = .ok ["inf"] ∧ parse_amounts "nan" = .ok ["nan"] :=
  ⟨rfl, rfl⟩

/-- C4: for every non-empty amount list, build_payout_body produces exactly one
item per amount in input order; the item at position i carries the i-th amount
with the given currency, the receiver email, the fixed PAYPAL wallet and GOODS
purpose literals, and the sender_item_id web- followed by the one-based
position zero-padded to three digits, hence the ids are the strictly increasing
sequence web-001, web-002, and so on. -/
theorem build_payout_body_item_sequence (email : String) (amounts : List String)
    (currency subject message rnd : String) (hne : amounts ≠ []) :
    (build_payout_body email amounts currency subject message rnd).items.length =
      amounts.length ∧
    ∀ i : ℕ, (build_payout_body email amounts currency subject message rnd).items.get? i =
      (amounts.get? i).map (fun a =>
        { amount := { value := a, currency := currency }
          sender_item_id := "web-" ++ pad03 (i + 1)
          recipient_wallet := "PAYPAL"
          receiver := email
          purpose := "GOODS" }) := by
  constructor
  · exact mkItems_length email currency amounts 1
  · intro i
    have := mkItems_get? email currency amounts 1 i
    simpa [build_payout_body, Nat.add_comm 1 i] using this

theorem build_payout_body_item_sequence_witness :
    (build_payout_body "a@b.com" ["5.00", "10.00"] "USD" "s" "m" "abcd").items.length = 2 ∧
    (build_payout_body "a@b.com" ["5.00", "10.00"] "USD" "s" "m" "abcd").items.get? 1 =
      some { amount := { value := "10.00", currency := "USD" }
             sender_item_id := "web-002"
             recipient_wallet := "PAYPAL"
             receiver := "a@b.com"
             purpose := "GOODS" } := by
  have h := build_payout_body_item_sequence "a@b.com" ["5.00", "10.00"] "USD" "s" "m" "abcd"
    (by decide)
  exact ⟨h.1, by rw [h.2 1]; rfl⟩

/-- C5: two builds with identical arguments and distinct random draws differ in
sender_batch_id and agree on the item list and on every other header field. -/
theorem build_payout_body_batch_id_freshness (email : String) (amounts : List String)
    (currency subject message : String) (r1 r2 : String) (h : r1 ≠ r2) :
    (build_payout_body email amounts currency subject message r1).sender_batch_header.sender_batch_id ≠
      (build_payout_body email amounts currency subject message r2).sender_batch_header.sender_batch_id ∧
    (build_payout_body email amounts currency subject message r1).items =
      (build_payout_body email amounts currency subject message r2).items ∧
    (build_payout_body email amounts currency subject message r1).sender_batch_header.recipient_type =
      (build_payout_body email amounts currency subject message r2).sender_batch_header.recipient_type ∧
    (build_payout_body email amounts currency subject message r1).sender_batch_header.email_subject =
      (build_payout_body email amounts currency subject message r2).sender_batch_header.email_subject ∧
    (build_payout_body email amounts currency subject message r1).sender_batch_header.email_message =
      (build_payout_body email amounts currency subject message r2).sender_batch_header.email_message := by
  refine ⟨?_, rfl, rfl, rfl, rfl⟩
  intro heq
  exact h (string_append_left_cancel "SB-" r1 r2 heq)

theorem build_payout_body_batch_id_freshness_witness :
    (build_payout_body "a@b.com" ["5.00"] "USD" "s" "m" "aaaa").sender_batch_header.sender_batch_id ≠
      (build_payout_body "a@b.com" ["5.00"] "USD" "s" "m" "bbbb").sender_batch_header.sender_batch_id ∧
    (build_payout_body "a@b.com" ["5.00"] "USD" "s" "m" "aaaa").items =
      (build_payout_body "a@b.com" ["5.00"] "USD" "s" "m" "bbbb").items ∧
    (build_payout_body "a@b.com" ["5.00"] "USD" "s" "m" "aaaa").sender_batch_header.recipient_type =
      (build_payout_body "a@b.com" ["5.00"] "USD" "s" "m" "bbbb").sender_batch_header.recipient_type ∧
    (build_payout_body "a@b.com" ["5.00"] "USD" "s" "m" "aaaa").sender_batch_header.email_subject =
      (build_payout_body "a@b.com" ["5.00"] "USD" "s" "m" "bbbb").sender_batch_header.email_subject ∧
    (build_payout_body "a@b.com" ["5.00"] "USD" "s" "m" "aaaa").sender_batch_header.email_message =
      (build_payout_body "a@b.com" ["5.00"] "USD" "s" "m" "bbbb").sender_batch_header.email_message :=
  build_payout_body_batch_id_freshness "a@b.com" ["5.00"] "USD" "s" "m" "aaaa" "bbbb" (by decide)

/-- C6: extract_batch_id reads the identifier under the snake_case convention,
under the camelCase convention, from the final path component of the first link
whose target path contains the payouts resource segment, and returns absent on
the empty document. -/
theorem extract_batch_id_examples :
    extractBatchId [("batch_header", Json.obj [("payout_batch_id", Json.str "X")])] =
      .ok (some (Json.str "X")) ∧
    extractBatchId [("batchHeader", Json.obj [("payoutBatchId", Json.str "Y")])] =
      .ok (some (Json.str "Y")) ∧
    extractBatchId [("links", Json.arr [Json.obj
        [("href", Json.str "https://api-m.paypal.com/v1/payments/payouts/Z")]])] =
      .ok (some (Json.str "Z")) ∧
    extractBatchId [] = .ok none :=
  ⟨rfl, rfl, rfl, rfl⟩

/-- C7 counterexample: on a document whose links list contains a non-dict
element the code raises AttributeError at link.get, so extract_batch_id is not
total on arbitrary dicts. -/
theorem extract_batch_id_raises_on_non_dict_link :
    extractBatchId [("links", Json.arr [Json.num 5])] = .error "AttributeError" := rfl

/-- C7 amended: extract_batch_id returns an identifier or absent, never
raising, on every document whose links value, when present and truthy, is a
list of dicts each of whose href values is absent, falsy, or a string; the
batch-header lookup alone never raises because of the isinstance guard. -/
theorem extract_batch_id_total_on_wellformed_links (resp : List (String × Json))
    (h : linksOk resp = true) : ∃ r, extractBatchId resp = .ok r := by
  have hlinks : ∃ r, linksPart resp = .ok r := by
    unfold linksOk at h
    unfold linksPart
    rcases hl : dictGet resp "links" with _ | w
    · exact ⟨none, by simp [truthy, iterLinks, scanLinks]⟩
    · rw [hl] at h
      cases w with
      | arr xs =>
        have hall : xs.all linkOk = true := by simpa [linksOkVal] using h
        cases xs with
        | nil => exact ⟨none, by simp [truthy, iterLinks, scanLinks]⟩
        | cons x xs' =>
          rcases scanLinks_ok_of_all (x :: xs') hall with ⟨r, hr⟩
          exact ⟨r, by simp [truthy, iterLinks, hr]⟩
      | null => exact ⟨none, by simp [truthy, iterLinks, scanLinks]⟩
      | bool b =>
        have hb : b = false := by simpa [linksOkVal, truthy] using h
        subst hb
        exact ⟨none, by simp [truthy, iterLinks, scanLinks]⟩
      | num q =>
        have hq : q = 0 := by simpa [linksOkVal, truthy] using h
        subst hq
        exact ⟨none, by simp [truthy, iterLinks, scanLinks]⟩
      | str s =>
        have hs : s = "" := by simpa [linksOkVal, truthy] using h
        subst hs
        exact ⟨none, by simp [truthy, iterLinks, scanLinks]⟩
      | obj kvs =>
        have hk : kvs = [] := by simpa [linksOkVal, truthy] using h
        subst hk
        exact ⟨none, by simp [truthy, iterLinks, scanLinks]⟩
  unfold extractBatchId
  rcases hh : headerPart resp with _ | v
  · rcases hlinks with ⟨r, hr⟩
    exact ⟨r, by simp [hr]⟩
  · exact ⟨some v, by simp⟩

theorem extract_batch_id_total_on_wellformed_links_witness :
    linksOk [("links", Json.arr [Json.obj
        [("href", Json.str "https://api-m.paypal.com/v1/payments/payouts/Z")]])] = true ∧
    ∃ r, extractBatchId [("links", Json.arr [Json.obj
        [("href", Json.str "https://api-m.paypal.com/v1/payments/payouts/Z")]])] = .ok r :=
  ⟨rfl, extract_batch_id_total_on_wellformed_links _ rfl⟩

/-- C8 counterexample: a success response whose access_token field is present
but empty makes get_access_token fail rather than return the empty value, so
presence of the field alone does not guarantee success. -/
theorem get_access_token_empty_token_fails :
    get_access_token "cid" "secret" (.success (Json.obj [("access_token", Json.str "")])) =
      .error .noAccessToken := rfl

/-- C8 amended: get_access_token fails with the wrapped cause on a transport
error, on a non-2xx response carrying its HTTP status (in particular status
401), on a 2xx object response whose access_token is missing or falsy, and on
a 2xx response that is not a JSON object; on a 2xx object response with a
truthy access_token it returns that value. -/
theorem get_access_token_characterization :
    (∀ cid cs msg, get_access_token cid cs (.transportError msg) = .error (.transport msg)) ∧
    (∀ cid cs status body, get_access_token cid cs (.httpError status body) =
      .error (.http status body)) ∧
    (∀ cid cs body, get_access_token cid cs (.httpError 401 body) = .error (.http 401 body)) ∧
    (∀ cid cs kvs tok, dictGet kvs "access_token" = some tok → truthy tok = true →
      get_access_token cid cs (.success (Json.obj kvs)) = .ok tok) ∧
    (∀ cid cs kvs, truthyOpt (dictGet kvs "access_token") = false →
      get_access_token cid cs (.success (Json.obj kvs)) = .error .noAccessToken) ∧
    (∀ cid cs payload, (∀ kvs, payload ≠ Json.obj kvs) →
      get_access_token cid cs (.success payload) = .error .notADict) := by
  refine ⟨fun _ _ _ => rfl, fun _ _ _ _ => rfl, fun _ _ _ => rfl, ?_, ?_, ?_⟩
  · intro cid cs kvs tok htok htru
    simp [get_access_token, htok, htru]
  · intro cid cs kvs h
    rcases htok : dictGet kvs "access_token" with _ | v
    · simp [get_access_token, htok]
    · rw [htok] at h
      simp only [truthyOpt] at h
      simp [get_access_token, htok, h]
  · intro cid cs payload h
    cases payload with
    | obj kvs => exact absurd rfl (h kvs)
    | null => rfl
    | bool b => rfl
    | num q => rfl
    | str s => rfl
    | arr xs => rfl

theorem get_access_token_characterization_witness :
    get_access_token "cid" "secret" (.success (Json.obj [("access_token", Json.str "tok123")])) =
      .ok (Json.str "tok123") :=
  get_access_token_characterization.2.2.2.1 "cid" "secret"
    [("access_token", Json.str "tok123")] (Json.str "tok123") rfl rfl

/-- C9: on the payout route, amount validation strictly precedes any remote
call.  When the credentials resolve and the email is present but parse_amounts
fails, the route issues no remote call and reports the validation error; and
conversely whenever any remote call was issued, parse_amounts succeeded. -/
theorem validation_precedes_remote_calls :
    (∀ (form : Form) (sess : Session) (env : EnvConfig) (rnd : String)
        (tokenOutcome payoutOutcome : HttpOutcome) (e : String),
      truthyS (resolvedClientId form sess env) = true →
      truthyS (resolvedClientSecret form sess env) = true →
      formEmail form ≠ "" →
      parse_amounts (formRawAmounts form) = .error e →
      create_payout_route form sess env rnd tokenOutcome payoutOutcome =
        (.redirectIndex e "error", effectiveSession form sess, [])) ∧
    (∀ (form : Form) (sess : Session) (env : EnvConfig) (rnd : String)
        (tokenOutcome payoutOutcome : HttpOutcome),
      (create_payout_route form sess env rnd tokenOutcome payoutOutcome).2.2 ≠ [] →
      ∃ vs, parse_amounts (formRawAmounts form) = .ok vs) := by
  constructor
  · intro form sess env rnd tokenOutcome payoutOutcome e hid hsec hemail hparse
    unfold create_payout_route
    rw [if_neg (by simp [hid, hsec]), if_neg hemail, hparse]
  · intro form sess env rnd tokenOutcome payoutOutcome htrace
    rcases hp : parse_amounts (formRawAmounts form) with e | vs
    · exfalso
      apply htrace
      unfold create_payout_route
      by_cases h1 : truthyS (resolvedClientId form sess env) = true ∧
          truthyS (resolvedClientSecret form sess env) = true
      · rw [if_neg (by simp [h1.1, h1.2])]
        by_cases h2 : formEmail form = ""
        · rw [if_pos h2]
        · rw [if_neg h2, hp]
      · rw [if_pos h1]
    · exact ⟨vs, rfl⟩

theorem validation_precedes_remote_calls_witness :
    create_payout_route
      { client_id := none, client_secret := none, email := some "a@b.com",
        amounts := some "abc", currency := none, subject := none, message := none }
      { paypal_client_id := some "cid", paypal_client_secret := some "sec" }
      { paypal_client_id_env := none, paypal_client_secret_env := none }
      "rnd" (.transportError "down") (.transportError "down") =
    (.redirectIndex "Invalid amount: abc" "error",
     { paypal_client_id := some "cid", paypal_client_secret := some "sec" }, []) :=
  validation_precedes_remote_calls.1
    { client_id := none, client_secret := none, email := some "a@b.com",
      amounts := some "abc", currency := none, subject := none, message := none }
    { paypal_client_id := some "cid", paypal_client_secret := some "sec" }
    { paypal_client_id_env := none, paypal_client_secret_env := none }
    "rnd" (.transportError "down") (.transportError "down") "Invalid amount: abc"
    rfl rfl (by decide) rfl

/-- C10: when the batch-header lookup yields a dict whose identifier lookup is
falsy, extract_batch_id behaves exactly as the links fallback: the presence of
the header never determines the result by itself; in particular with a falsy
empty-string identifier it returns the links-derived identifier when a payouts
link exists and absent otherwise. -/
theorem header_falsy_id_falls_through :
    (∀ (resp : List (String × Json)) (bh : List (String × Json)),
      pyOrJ (dictGet resp "batch_header") (dictGet resp "batchHeader") =
        some (Json.obj bh) →
      truthyOpt (pyOrJ (dictGet bh "payout_batch_id") (dictGet bh "payoutBatchId")) = false →
      extractBatchId resp = linksPart resp) ∧
    extractBatchId [("batch_header", Json.obj [("payout_batch_id", Json.str "")]),
        ("links", Json.arr [Json.obj
          [("href", Json.str "https://api-m.paypal.com/v1/payments/payouts/Z")]])] =
      .ok (some (Json.str "Z")) ∧
    extractBatchId [("batch_header", Json.obj [("payout_batch_id", Json.str "")])] =
      .ok none := by
  refine ⟨?_, rfl, rfl⟩
  intro resp bh h1 h2
  have hhp : headerPart resp = none := by
    unfold headerPart
    rw [h1]
    rcases hx : pyOrJ (dictGet bh "payout_batch_id") (dictGet bh "payoutBatchId") with _ | v
    · simp [hx]
    · rw [hx] at h2
      simp only [truthyOpt] at h2
      simp [hx, h2]
  unfold extractBatchId
  rw [hhp]

theorem header_falsy_id_falls_through_witness :
    extractBatchId [("batch_header", Json.obj [("payout_batch_id", Json.str "")]),
        ("links", Json.arr [Json.obj
          [("href", Json.str "https://api-m.paypal.com/v1/payments/payouts/Z")]])] =
      linksPart [("batch_header", Json.obj [("payout_batch_id", Json.str "")]),
        ("links", Json.arr [Json.obj
          [("href", Json.str "https://api-m.paypal.com/v1/payments/payouts/Z")]])] :=
  header_falsy_id_falls_through.1 _ [("payout_batch_id", Json.str "")] rfl rfl

end Masspayout
